import Mathlib

/-!
# Verification of the gskill evaluation loop

Shallow embedding of the gskill repository (src/tasks.py, src/evaluator.py,
src/pipeline.py, main.py) and proofs of the specified properties.

External collaborators (the SWE-smith dataset, the mini-SWE-agent machinery,
the Docker execution backend) are modelled as oracle parameters whose possible
behaviours follow the interfaces stated in the specification: the agent run
either yields a submission value or raises, and a container run either
completes with an exit status, exceeds its wall-clock budget, or fails because
the backend executable is unavailable.
-/

namespace GSkill

/-- A SWE-smith task record (spec section 3; fields per the dataset interface:
`instance_id`, `repo`, `problem_statement`, optional `image_name` /
`docker_image`, `FAIL_TO_PASS`, `PASS_TO_PASS`). -/
structure Task where
  instance_id : String
  repo : String
  problem_statement : String
  image_name : Option String
  docker_image : Option String
  FAIL_TO_PASS : List String
  PASS_TO_PASS : List String
  deriving Repr, DecidableEq

/-! ## src/tasks.py -/

/-- `DATASET_NAME = "SWE-bench/SWE-smith"` (tasks.py line 5). -/
def DATASET_NAME : String := "SWE-bench/SWE-smith"

/-- `starts_with needle hay` : does `hay` start with `needle`?
Char-list model of Python prefix matching, used to build substring search. -/
def starts_with : List Char → List Char → Bool
  | [], _ => true
  | _ :: _, [] => false
  | a :: as, b :: bs => a == b && starts_with as bs

/-- `contains_sub hay needle` : does `needle` occur as a contiguous substring
of `hay`?  Model of Python's `slug in t["repo"]` (tasks.py line 23). -/
def contains_sub : List Char → List Char → Bool
  | hay, needle =>
    starts_with needle hay ||
      match hay with
      | [] => false
      | _ :: t => contains_sub t needle

/-- The slug normalisation `repo_name.replace("/", "__")` (tasks.py line 22).
The pattern is the single character `/`, so Python's left-to-right
non-overlapping replacement is exactly this per-character expansion. -/
def repo_slug (repo_name : String) : String :=
  String.mk (repo_name.data.flatMap (fun c => if c == '/' then ['_', '_'] else [c]))

/-- The error message raised when zero tasks match (tasks.py lines 25-28). -/
def load_tasks_error (repo_name : String) : String :=
  "No tasks found for repo '" ++ repo_name ++ "' in " ++ DATASET_NAME ++
    ". Use the full 'owner/repo' format, e.g., 'pallets/jinja'."

/-- `load_tasks(repo_name, n)` (tasks.py lines 8-29), with the dataset rows
passed explicitly (`load_dataset` is an external service).  Filters rows whose
`repo` field contains the normalised slug as a substring; raising `ValueError`
on zero matches is modelled as `Except.error`. -/
def load_tasks (ds : List Task) (repo_name : String) (n : Nat := 300) :
    Except String (List Task) :=
  let slug := repo_slug repo_name
  let tasks := ds.filter (fun t => contains_sub t.repo.data slug.data)
  if tasks.isEmpty then
    .error (load_tasks_error repo_name)
  else
    .ok (tasks.take n)

/-- Python `int()` applied to an exact rational: truncation toward zero.
The source applies `int` to the float products `n * train`, `n * val`
(tasks.py lines 46-47); for the inputs settled here the IEEE-754 double
products round to the same integers as the exact rational products, so the
rational model is observationally faithful. -/
def py_int (q : ℚ) : Int :=
  if q < 0 then -(Int.floor (-q)) else Int.floor q

/-- `split_tasks(tasks, train, val)` (tasks.py lines 32-52): deterministic
positional three-way split `tasks[:n_train]`, `tasks[n_train:n_train+n_val]`,
`tasks[n_train+n_val:]` with `n_train = int(n*train)`, `n_val = int(n*val)`. -/
def split_tasks (tasks : List Task) (train : ℚ := 67/100) (val : ℚ := 17/100) :
    List Task × List Task × List Task :=
  let n := tasks.length
  let n_train := (py_int ((n : ℚ) * train)).toNat
  let n_val := (py_int ((n : ℚ) * val)).toNat
  (tasks.take n_train, (tasks.drop n_train).take n_val,
    tasks.drop (n_train + n_val))

/-! ## src/evaluator.py -/

/-- Outcome of the external machinery inside the `try` block of `evaluate`
(evaluator.py lines 140-162: config construction via `get_config_from_spec` /
`recursive_merge`, environment materialisation, model and agent construction,
`agent.run`, and extraction of the `submission` field).  Per the spec's
agent-runner interface it either yields `{submission: text|absent}` or raises
an arbitrary error, carried here as its string rendering. -/
inductive AgentResult where
  | ok (submission : Option String)
  | exc (msg : String)
  deriving Repr, DecidableEq

/-- One `subprocess.run(["docker", "run", ...])` invocation
(evaluator.py lines 76-91): the image, the patch text mounted read-only at
/tmp/solution.patch, the shell command, and the wall-clock budget. -/
structure DockerCall where
  image : String
  patch : String
  cmd : String
  timeout_s : Nat
  deriving Repr, DecidableEq

/-- Outcome of a docker invocation, per the execution-backend interface of the
spec: completion with an exit status and captured output, `TimeoutExpired`, or
`FileNotFoundError` (backend executable unavailable). -/
inductive DockerOutcome where
  | completed (returncode : Int) (stdout stderr : String)
  | timeoutExpired
  | fileNotFound
  deriving Repr, DecidableEq

/-- Observable per-call resource state: which of the three temporary files
created by one `evaluate` call currently exist on disk, and how many times the
docker backend has been invoked. -/
structure SysState where
  skill_config_exists : Bool
  traj_file_exists : Bool
  patch_file_exists : Bool
  docker_calls : Nat
  deriving Repr, DecidableEq

/-- The diagnostic record returned by `evaluate`
(evaluator.py lines 186-192). -/
structure SideInfo where
  instance_id : String
  patch_chars : Nat
  score : ℚ
  error : String
  test_failure_reason : String
  deriving Repr, DecidableEq

/-- Modelled from the spec: `get_swebench_docker_image_name` lives in the
external `minisweagent` package, not in this repository.  Spec section 4.3
step 2: resolve the image by checking task-specific overrides (`image_name`,
`docker_image`) first, falling back to a deterministic name derived from the
task identifier. -/
def get_swebench_docker_image_name (inst : Task) : String :=
  match inst.image_name with
  | some img => img
  | none =>
    match inst.docker_image with
    | some img => img
    | none => "swebench/sweb.eval.x86_64." ++ inst.instance_id

/-- `test_ids = fail_to_pass[:10]` (evaluator.py line 62): cap the checks
executed to the first 10 of the fail-to-pass list. -/
def test_ids (fail_to_pass : List String) : List String :=
  fail_to_pass.take 10

/-- `test_args = " ".join(f'"{t}"' for t in test_ids)` (evaluator.py
line 63). -/
def test_args (tids : List String) : String :=
  String.intercalate " " (tids.map (fun t => "\"" ++ t ++ "\""))

/-- The shell command run inside the container (evaluator.py lines 69-73). -/
def test_cmd (targs : String) : String :=
  "cd /testbed\n" ++
    "git apply /tmp/solution.patch 2>/dev/null || " ++
    "patch -p1 < /tmp/solution.patch 2>/dev/null\n" ++
    "python -m pytest " ++ targs ++ " -x --tb=no -q 2>&1\n"

/-- The single docker invocation `_run_tests` makes for a task and patch
(evaluator.py lines 76-91): resolved image, the patch mounted read-only, the
command over the first 10 fail-to-pass checks, `timeout=180`. -/
def run_tests_call (inst : Task) (patch : String) : DockerCall :=
  { image := get_swebench_docker_image_name inst
    patch := patch
    cmd := test_cmd (test_args (test_ids inst.FAIL_TO_PASS))
    timeout_s := 180 }

/-- `_run_tests(instance, patch)` (evaluator.py lines 41-111), with the docker
backend passed as an oracle from calls to outcomes and the file/backend state
threaded explicitly.
* Empty `FAIL_TO_PASS` returns `(False, "no_fail_to_pass_tests")` before any
  temporary file or backend use (lines 53-56).
* Otherwise the patch is written to a temporary file (lines 65-67), the
  backend is invoked once (lines 76-91), completion maps the exit status to
  `tests_passed` / `tests_failed` (lines 92-100), `TimeoutExpired` to
  `test_timeout` (lines 101-103), `FileNotFoundError` to `docker_not_found`
  (lines 104-109), and the `finally` block removes the patch file on every
  path (lines 110-111). -/
def _run_tests (inst : Task) (patch : String)
    (docker : DockerCall → DockerOutcome) (s : SysState) :
    (Bool × String) × SysState :=
  if inst.FAIL_TO_PASS.isEmpty then
    ((false, "no_fail_to_pass_tests"), s)
  else
    let s := { s with patch_file_exists := true }
    let s := { s with docker_calls := s.docker_calls + 1 }
    let res :=
      match docker (run_tests_call inst patch) with
      | .completed rc _ _ =>
        (rc == 0, if rc == 0 then "tests_passed" else "tests_failed")
      | .timeoutExpired => (false, "test_timeout")
      | .fileNotFound => (false, "docker_not_found")
    (res, { s with patch_file_exists := false })

/-- The character class stripped by Python's `str.strip()` on ASCII text:
space, tab, newline, carriage return, vertical tab, form feed. -/
def is_py_space (c : Char) : Bool :=
  c == ' ' || c == '\t' || c == '\n' || c == '\r' || c == '\x0b' || c == '\x0c'

/-- Drop leading whitespace characters. -/
def drop_ws : List Char → List Char
  | [] => []
  | c :: cs => if is_py_space c then drop_ws cs else c :: cs

/-- Python's `str.strip()` with no arguments: remove leading and trailing
whitespace.  Used by `evaluate` to test `patch.strip()` truthiness
(evaluator.py line 172). -/
def py_strip (s : String) : String :=
  String.mk (List.reverse (drop_ws (List.reverse (drop_ws s.data))))

/-- `_SYSTEM_PREFIX` (evaluator.py lines 22-26): fixed preamble framing the
skill content in the agent's system template. -/
def _SYSTEM_PREFIX : String :=
  "You are a helpful assistant that can interact with a computer shell " ++
    "to solve programming tasks.\n\n# Repository-Specific Knowledge\n\n"

/-- The `agent.system_template` value written by `_write_skill_config`
(evaluator.py lines 29-32): the fixed preamble concatenated with the candidate
skill text. -/
def skill_system_template (skill : String) : String :=
  _SYSTEM_PREFIX ++ skill

/-- The `try` block body as Python sees it: either the extracted patch string
`result.get("submission", "") or ""` (evaluator.py line 161) or a raised
exception. -/
def agent_block : AgentResult → Except String String
  | .ok sub => .ok (sub.getD "")
  | .exc msg => .error msg

/-- The string rendering of the agent-phase error stored in the diagnostic
record: `""` when the block succeeded, `f"{type(e).__name__}: {e}"` otherwise
(evaluator.py lines 137, 163-164). -/
def agent_error : AgentResult → String
  | .ok _ => ""
  | .exc msg => msg

/-- `evaluate(candidate_skill, task)` (evaluator.py lines 128-192), the
closure built by `make_evaluator`, with the agent machinery and the docker
backend as oracles and the resource state threaded explicitly.  A Python
exception escaping to the caller is `Except.error`.
* `_write_skill_config` creates the temporary YAML (lines 29-38, 129).
* The trajectory temp file is created with `delete=False` (lines 130-133) and
  is never unlinked anywhere in the function.
* The `try` block yields the patch or is caught by `except Exception`
  (lines 140-165); the `finally` block unlinks the skill config, swallowing
  `OSError` (lines 166-170).
* A blank patch (`not patch.strip()`) short-circuits to
  `no_patch_submitted` with score 0.0; otherwise `_run_tests` decides the
  score (lines 172-184). -/
def evaluate (candidate_skill : String) (task : Task)
    (agent : String → AgentResult)
    (docker : DockerCall → DockerOutcome) (s : SysState) :
    Except String ((ℚ × SideInfo) × SysState) :=
  let s := { s with skill_config_exists := true }
  let s := { s with traj_file_exists := true }
  let (patch, error_msg) :=
    match agent_block (agent (skill_system_template candidate_skill)) with
    | .ok p => (p, "")
    | .error e => ("", e)
  let s := { s with skill_config_exists := false }
  if py_strip patch == "" then
    .ok ((0,
      { instance_id := task.instance_id
        patch_chars := patch.length
        score := 0
        error := error_msg
        test_failure_reason := "no_patch_submitted" }), s)
  else
    let ((passed, test_reason), s) := _run_tests task patch docker s
    let score : ℚ := if passed then 1 else 0
    .ok ((score,
      { instance_id := task.instance_id
        patch_chars := patch.length
        score := score
        error := error_msg
        test_failure_reason := test_reason }), s)

/-! ## src/pipeline.py and main.py: call-binding model

Python binds a call's keyword arguments to the callee's formal parameters at
call time and raises `TypeError` when a keyword names no parameter (none of
these signatures declare `**kwargs`).  The parameter lists and call-site
keyword lists below are transcribed from the source. -/

/-- Formal parameters of `pipeline.run` (src/src/pipeline.py lines 20-26). -/
def pipeline_run_params : List String :=
  ["repo_url", "output_dir", "max_evals", "use_initial_skill", "agent_model"]

/-- Formal parameters of `make_evaluator` (src/src/evaluator.py line 114):
`def make_evaluator() -> ...` takes no parameters. -/
def make_evaluator_params : List String := []

/-- Keyword arguments the CLI `run` command passes to `pipeline.run`
(src/main.py lines 58-66). -/
def cli_run_call_kwargs : List String :=
  ["repo_url", "output_dir", "max_evals", "use_initial_skill", "agent_model",
    "skill_model", "base_url"]

/-- Keyword arguments `pipeline.run` passes to `make_evaluator`
(src/src/pipeline.py line 58: `make_evaluator(agent_model=agent_model)`). -/
def pipeline_make_evaluator_call_kwargs : List String := ["agent_model"]

/-- A Python call binds without `TypeError` iff every keyword argument names a
formal parameter of the callee. -/
def kwargs_accepted (kwargs params : List String) : Bool :=
  kwargs.all (fun k => params.contains k)

/-! ## Concrete fixtures used by witnesses and counterexamples -/

/-- A task with no fail-to-pass checks. -/
def task_stub : Task :=
  { instance_id := "stub"
    repo := "swesmith/other__repo.aaa111"
    problem_statement := ""
    image_name := none
    docker_image := none
    FAIL_TO_PASS := []
    PASS_TO_PASS := [] }

/-- A task with one fail-to-pass check. -/
def task_ft : Task :=
  { instance_id := "task-1"
    repo := "swesmith/pallets__jinja.abc123"
    problem_statement := "fix the bug"
    image_name := some "img"
    docker_image := none
    FAIL_TO_PASS := ["test_foo.py::test_bar"]
    PASS_TO_PASS := [] }

/-- A clean per-call resource state: no temporary files, no backend calls. -/
def s0 : SysState :=
  { skill_config_exists := false
    traj_file_exists := false
    patch_file_exists := false
    docker_calls := 0 }

/-- A backend oracle that completes immediately with exit status 0. -/
def docker_ok : DockerCall → DockerOutcome := fun _ => .completed 0 "" ""

/-! ## Helper lemmas -/

/-- Effect of `_run_tests` on the resource state: either the fail-to-pass
list is empty and the state is untouched, or the patch file has been created
and removed again and the backend was invoked exactly once. -/
lemma run_tests_sysstate (inst : Task) (patch : String)
    (docker : DockerCall → DockerOutcome) (s : SysState) :
    (_run_tests inst patch docker s).2 = s ∨
      (_run_tests inst patch docker s).2 =
        { s with patch_file_exists := false,
                 docker_calls := s.docker_calls + 1 } := by
  unfold _run_tests
  by_cases h : inst.FAIL_TO_PASS.isEmpty
  · rw [if_pos h]
    exact Or.inl rfl
  · rw [if_neg h]
    exact Or.inr rfl

/-- Shape of every `evaluate` result: a normal return whose diagnostic
record carries the agent-phase error string, with the skill-config file
removed, the trajectory file present, and the patch file either untouched or
removed. -/
lemma evaluate_ok_spec (c : String) (t : Task) (agent : String → AgentResult)
    (docker : DockerCall → DockerOutcome) (s : SysState) :
    ∃ score info s2, evaluate c t agent docker s = .ok ((score, info), s2) ∧
      info.error = agent_error (agent (skill_system_template c)) ∧
      s2.skill_config_exists = false ∧
      s2.traj_file_exists = true ∧
      (s2.patch_file_exists = s.patch_file_exists ∨
        s2.patch_file_exists = false) := by
  unfold evaluate
  rcases hA : agent (skill_system_template c) with sub | msg
  · simp only [agent_block, agent_error]
    by_cases hb : (py_strip (sub.getD "") == "") = true
    · rw [if_pos hb]
      exact ⟨0, _, _, rfl, rfl, rfl, rfl, Or.inl rfl⟩
    · rw [if_neg hb]
      have hstate := run_tests_sysstate t (sub.getD "") docker
        { skill_config_exists := false, traj_file_exists := true,
          patch_file_exists := s.patch_file_exists,
          docker_calls := s.docker_calls }
      refine ⟨_, _, _, rfl, rfl, ?_, ?_, ?_⟩
      · rcases hstate with h | h <;> rw [h]
      · rcases hstate with h | h <;> rw [h]
      · rcases hstate with h | h <;> rw [h]
        · exact Or.inl rfl
        · exact Or.inr rfl
  · simp only [agent_block, agent_error]
    rw [if_pos (show (py_strip "" == "") = true from rfl)]
    exact ⟨0, _, _, rfl, rfl, rfl, rfl, Or.inl rfl⟩

/-! ## Claims -/

/-- C1: for every candidate skill, task, agent behaviour and backend
behaviour, `evaluate` returns normally with a (score, diagnostic record)
pair — no exception reaches the caller — and the agent-phase error, if any,
is recorded as a string in the record's `error` field (verification's
exceptional outcomes are recorded as reason tags, see C5). -/
theorem c1_evaluate_never_raises (c : String) (t : Task)
    (agent : String → AgentResult) (docker : DockerCall → DockerOutcome)
    (s : SysState) :
    ∃ score info s2, evaluate c t agent docker s = .ok ((score, info), s2) ∧
      info.error = agent_error (agent (skill_system_template c)) := by
  obtain ⟨score, info, s2, h1, h2, -, -, -⟩ := evaluate_ok_spec c t agent docker s
  exact ⟨score, info, s2, h1, h2⟩

/-- C2: when the agent run yields no submission (absent or the empty
string), `evaluate` returns score 0.0 with reason `no_patch_submitted` and
the docker backend is never invoked. -/
theorem c2_empty_submission (c : String) (t : Task)
    (agent : String → AgentResult) (docker : DockerCall → DockerOutcome)
    (s : SysState) (sub : Option String)
    (hA : agent (skill_system_template c) = .ok sub)
    (hempty : sub = none ∨ sub = some "") :
    ∃ info s2, evaluate c t agent docker s = .ok ((0, info), s2) ∧
      info.score = 0 ∧
      info.test_failure_reason = "no_patch_submitted" ∧
      s2.docker_calls = s.docker_calls := by
  have hpatch : sub.getD "" = "" := by
    rcases hempty with h | h <;> subst h <;> rfl
  unfold evaluate
  rw [hA]
  simp only [agent_block, hpatch]
  rw [if_pos (show (py_strip "" == "") = true from rfl)]
  exact ⟨_, _, rfl, rfl, rfl, rfl⟩

/-- C2 witness: an agent yielding no submission on a concrete task. -/
theorem c2_empty_submission_witness :
    ((fun _ : String => AgentResult.ok none) (skill_system_template "sk") =
        .ok none) ∧
      ((none : Option String) = none ∨ (none : Option String) = some "") ∧
      (∃ info s2,
        evaluate "sk" task_ft (fun _ => .ok none) docker_ok s0 =
            .ok ((0, info), s2) ∧
          info.score = 0 ∧
          info.test_failure_reason = "no_patch_submitted" ∧
          s2.docker_calls = s0.docker_calls) :=
  ⟨rfl, Or.inl rfl,
    c2_empty_submission "sk" task_ft (fun _ => .ok none) docker_ok s0 none rfl
      (Or.inl rfl)⟩

/-- C10: a submission that is non-empty but all whitespace is treated as no
patch: score 0.0, reason `no_patch_submitted`, verification never invoked,
while `patch_chars` reports the raw character count, which is positive. -/
theorem c10_whitespace_submission (c : String) (t : Task)
    (agent : String → AgentResult) (docker : DockerCall → DockerOutcome)
    (s : SysState) (ws : String)
    (hA : agent (skill_system_template c) = .ok (some ws))
    (hne : ws ≠ "") (hblank : py_strip ws = "") :
    ∃ info s2, evaluate c t agent docker s = .ok ((0, info), s2) ∧
      info.test_failure_reason = "no_patch_submitted" ∧
      info.patch_chars = ws.length ∧
      0 < info.patch_chars ∧
      s2.docker_calls = s.docker_calls := by
  have hlen : 0 < ws.length := by
    cases ws with
    | mk data =>
      cases data with
      | nil => simp at hne
      | cons a as => simp [String.length]
  unfold evaluate
  rw [hA]
  simp only [agent_block, Option.getD]
  rw [if_pos (show (py_strip ws == "") = true by simp [hblank])]
  exact ⟨_, _, rfl, rfl, rfl, hlen, rfl⟩

/-- C10 witness: a single-space submission. -/
theorem c10_whitespace_submission_witness :
    ((fun _ : String => AgentResult.ok (some " ")) (skill_system_template "sk") =
        .ok (some " ")) ∧
      (" " : String) ≠ "" ∧
      py_strip " " = "" ∧
      (∃ info s2,
        evaluate "sk" task_ft (fun _ => .ok (some " ")) docker_ok s0 =
            .ok ((0, info), s2) ∧
          info.test_failure_reason = "no_patch_submitted" ∧
          info.patch_chars = (" " : String).length ∧
          0 < info.patch_chars ∧
          s2.docker_calls = s0.docker_calls) :=
  ⟨rfl, by decide, rfl,
    c10_whitespace_submission "sk" task_ft (fun _ => .ok (some " ")) docker_ok
      s0 " " rfl (by decide) rfl⟩

/-- C3 counterexample: on a task with an empty fail-to-pass list the code's
reason tag is the string `no_fail_to_pass_tests`, not `no_checks_defined` as
the claim states. -/
theorem c3_tag_counterexample :
    (_run_tests task_stub "p" docker_ok s0).1 =
        (false, "no_fail_to_pass_tests") ∧
      ("no_fail_to_pass_tests" : String) ≠ "no_checks_defined" :=
  ⟨rfl, by decide⟩

/-- C3 (amended): for every task with an empty fail-to-pass list,
verification returns `(false, no_fail_to_pass_tests)` immediately, without
creating the patch file or invoking the execution backend (the state is
returned unchanged). -/
theorem c3_run_tests_empty_checks (t : Task) (patch : String)
    (docker : DockerCall → DockerOutcome) (s : SysState)
    (h : t.FAIL_TO_PASS = []) :
    _run_tests t patch docker s = ((false, "no_fail_to_pass_tests"), s) := by
  unfold _run_tests
  rw [h]
  rfl

/-- C3 witness: the amended theorem on a concrete check-free task. -/
theorem c3_run_tests_empty_checks_witness :
    task_stub.FAIL_TO_PASS = [] ∧
      _run_tests task_stub "p" (fun _ => .timeoutExpired) s0 =
        ((false, "no_fail_to_pass_tests"), s0) :=
  ⟨rfl, c3_run_tests_empty_checks task_stub "p" (fun _ => .timeoutExpired) s0 rfl⟩

/-- C4: with a non-empty fail-to-pass list, verification executes the first
10 checks at most (`test_ids` is `take 10`), and a completed container run
yields `(true, tests_passed)` on exit status zero and `(false, tests_failed)`
otherwise — determined solely by the exit status. -/
theorem c4_run_tests_completed (t : Task) (patch : String)
    (docker : DockerCall → DockerOutcome) (s : SysState)
    (rc : Int) (out err : String)
    (hne : t.FAIL_TO_PASS ≠ [])
    (hd : docker (run_tests_call t patch) = .completed rc out err) :
    test_ids t.FAIL_TO_PASS = t.FAIL_TO_PASS.take 10 ∧
      (test_ids t.FAIL_TO_PASS).length ≤ 10 ∧
      (_run_tests t patch docker s).1 =
        (rc == 0, if rc == 0 then "tests_passed" else "tests_failed") := by
  have hie : t.FAIL_TO_PASS.isEmpty = false := by
    simp [List.isEmpty_eq_false, hne]
  refine ⟨rfl, ?_, ?_⟩
  · simp [test_ids]
  · simp [_run_tests, hie, hd]

/-- C4 witness: one fail-to-pass check and a run completing with status 0. -/
theorem c4_run_tests_completed_witness :
    task_ft.FAIL_TO_PASS ≠ [] ∧
      docker_ok (run_tests_call task_ft "d") = .completed 0 "" "" ∧
      (test_ids task_ft.FAIL_TO_PASS = task_ft.FAIL_TO_PASS.take 10 ∧
        (test_ids task_ft.FAIL_TO_PASS).length ≤ 10 ∧
        (_run_tests task_ft "d" docker_ok s0).1 =
          ((0 : Int) == 0,
            if (0 : Int) == 0 then "tests_passed" else "tests_failed")) :=
  ⟨by simp [task_ft], rfl,
    c4_run_tests_completed task_ft "d" docker_ok s0 0 "" ""
      (by simp [task_ft]) rfl⟩

/-- C5: the two exceptional container outcomes are tagged failing results,
not exceptions: exceeding the 180-second budget yields
`(false, test_timeout)` and an unavailable backend yields
`(false, docker_not_found)`, a tag distinct from `tests_failed`. -/
theorem c5_run_tests_timeout_and_unavailable (t : Task) (patch : String)
    (d1 d2 : DockerCall → DockerOutcome) (s : SysState)
    (hne : t.FAIL_TO_PASS ≠ [])
    (h1 : d1 (run_tests_call t patch) = .timeoutExpired)
    (h2 : d2 (run_tests_call t patch) = .fileNotFound) :
    (_run_tests t patch d1 s).1 = (false, "test_timeout") ∧
      (_run_tests t patch d2 s).1 = (false, "docker_not_found") ∧
      (run_tests_call t patch).timeout_s = 180 ∧
      ("docker_not_found" : String) ≠ "tests_failed" := by
  have hie : t.FAIL_TO_PASS.isEmpty = false := by
    simp [List.isEmpty_eq_false, hne]
  refine ⟨?_, ?_, rfl, by decide⟩
  · simp [_run_tests, hie, h1]
  · simp [_run_tests, hie, h2]

/-- C5 witness: a timing-out backend and a missing backend on a concrete
task. -/
theorem c5_run_tests_timeout_and_unavailable_witness :
    task_ft.FAIL_TO_PASS ≠ [] ∧
      ((fun _ : DockerCall => DockerOutcome.timeoutExpired)
          (run_tests_call task_ft "d") = .timeoutExpired) ∧
      ((fun _ : DockerCall => DockerOutcome.fileNotFound)
          (run_tests_call task_ft "d") = .fileNotFound) ∧
      ((_run_tests task_ft "d" (fun _ => .timeoutExpired) s0).1 =
          (false, "test_timeout") ∧
        (_run_tests task_ft "d" (fun _ => .fileNotFound) s0).1 =
          (false, "docker_not_found") ∧
        (run_tests_call task_ft "d").timeout_s = 180 ∧
        ("docker_not_found" : String) ≠ "tests_failed") :=
  ⟨by simp [task_ft], rfl, rfl,
    c5_run_tests_timeout_and_unavailable task_ft "d"
      (fun _ => .timeoutExpired) (fun _ => .fileNotFound) s0
      (by simp [task_ft]) rfl rfl⟩

/-- C6 counterexample: a concrete successful evaluation after which the
trajectory temporary file still exists — it is created with `delete=False`
and never unlinked, so not every temporary file is removed after use. -/
theorem c6_traj_file_counterexample :
    evaluate "sk" task_ft (fun _ => .ok (some "diff")) docker_ok s0 =
        .ok ((1,
          { instance_id := "task-1", patch_chars := 4, score := 1,
            error := "", test_failure_reason := "tests_passed" }),
          { skill_config_exists := false, traj_file_exists := true,
            patch_file_exists := false, docker_calls := 1 }) ∧
      ({ skill_config_exists := false, traj_file_exists := true,
          patch_file_exists := false,
          docker_calls := 1 } : SysState).traj_file_exists = true :=
  ⟨rfl, rfl⟩

/-- C6 (amended): on every outcome, the temporary skill-configuration file
and the temporary patch file are removed after the call, but the trajectory
file created by the evaluator is left behind. -/
theorem c6_cleanup_except_traj (c : String) (t : Task)
    (agent : String → AgentResult) (docker : DockerCall → DockerOutcome)
    (s : SysState) (hp : s.patch_file_exists = false) :
    ∃ r s2, evaluate c t agent docker s = .ok (r, s2) ∧
      s2.skill_config_exists = false ∧
      s2.patch_file_exists = false ∧
      s2.traj_file_exists = true := by
  obtain ⟨score, info, s2, h1, -, h4, h5, h6⟩ := evaluate_ok_spec c t agent docker s
  refine ⟨(score, info), s2, h1, h4, ?_, h5⟩
  rcases h6 with h | h
  · rw [h, hp]
  · exact h

/-- C6 (amended) witness: cleanup facts at a concrete evaluation from a
clean state. -/
theorem c6_cleanup_except_traj_witness :
    s0.patch_file_exists = false ∧
      (∃ r s2,
        evaluate "sk" task_ft (fun _ => .exc "RuntimeError: boom") docker_ok
            s0 = .ok (r, s2) ∧
          s2.skill_config_exists = false ∧
          s2.patch_file_exists = false ∧
          s2.traj_file_exists = true) :=
  ⟨rfl,
    c6_cleanup_except_traj "sk" task_ft (fun _ => .exc "RuntimeError: boom")
      docker_ok s0 rfl⟩

/-- C7: for every list of 100 tasks, `split_tasks` with fractions 0.67 and
0.17 yields partitions of lengths exactly (67, 17, 16) whose ordered
concatenation `train ++ val ++ test` is the input list — deterministic
positional slicing with no shuffling, hence no positional overlap. -/
theorem c7_split_tasks_hundred (tasks : List Task) (h : tasks.length = 100) :
    (split_tasks tasks (67/100) (17/100)).1.length = 67 ∧
      (split_tasks tasks (67/100) (17/100)).2.1.length = 17 ∧
      (split_tasks tasks (67/100) (17/100)).2.2.length = 16 ∧
      (split_tasks tasks (67/100) (17/100)).1 ++
          (split_tasks tasks (67/100) (17/100)).2.1 ++
          (split_tasks tasks (67/100) (17/100)).2.2 = tasks := by
  have e1 : (py_int (((100 : ℕ) : ℚ) * (67/100))).toNat = 67 := by
    have h67 : py_int (((100 : ℕ) : ℚ) * (67/100)) = 67 := by norm_num [py_int]
    rw [h67]; rfl
  have e2 : (py_int (((100 : ℕ) : ℚ) * (17/100))).toNat = 17 := by
    have h17 : py_int (((100 : ℕ) : ℚ) * (17/100)) = 17 := by norm_num [py_int]
    rw [h17]; rfl
  simp only [split_tasks, h, e1, e2]
  refine ⟨?_, ?_, ?_, ?_⟩
  · simp [List.length_take, h]
  · simp [List.length_take, List.length_drop, h]
  · simp [List.length_drop, h]
  · rw [List.append_assoc]
    have hd : (tasks.drop 67).drop 17 = tasks.drop (67 + 17) := by
      rw [List.drop_drop]
    rw [← hd, List.take_append_drop, List.take_append_drop]

/-- C7 witness: the theorem instantiated on a concrete 100-element list. -/
theorem c7_split_tasks_hundred_witness :
    (List.replicate 100 task_stub).length = 100 ∧
      ((split_tasks (List.replicate 100 task_stub) (67/100) (17/100)).1.length = 67 ∧
        (split_tasks (List.replicate 100 task_stub) (67/100) (17/100)).2.1.length = 17 ∧
        (split_tasks (List.replicate 100 task_stub) (67/100) (17/100)).2.2.length = 16 ∧
        (split_tasks (List.replicate 100 task_stub) (67/100) (17/100)).1 ++
            (split_tasks (List.replicate 100 task_stub) (67/100) (17/100)).2.1 ++
            (split_tasks (List.replicate 100 task_stub) (67/100) (17/100)).2.2 =
          List.replicate 100 task_stub) :=
  ⟨by simp, c7_split_tasks_hundred (List.replicate 100 task_stub) (by simp)⟩

/-- C8: when zero dataset records match the normalised slug (substring match
of `owner__repo` against the record's `repo` field), `load_tasks` fails with
the not-found error instead of returning an empty sequence. -/
theorem c8_load_tasks_zero_matches (ds : List Task) (repo_name : String)
    (n : Nat)
    (h : ∀ t ∈ ds,
      contains_sub t.repo.data (repo_slug repo_name).data = false) :
    load_tasks ds repo_name n = .error (load_tasks_error repo_name) := by
  have hf : ds.filter
      (fun t => contains_sub t.repo.data (repo_slug repo_name).data) = [] :=
    List.filter_eq_nil_iff.mpr (by intro a ha; simp [h a ha])
  simp [load_tasks, hf]

/-- C8 witness: a one-record dataset whose `repo` field does not contain
`pallets__jinja`. -/
theorem c8_load_tasks_zero_matches_witness :
    (∀ t ∈ [task_stub],
        contains_sub t.repo.data (repo_slug "pallets/jinja").data = false) ∧
      load_tasks [task_stub] "pallets/jinja" 300 =
        .error (load_tasks_error "pallets/jinja") :=
  ⟨by decide, c8_load_tasks_zero_matches [task_stub] "pallets/jinja" 300 (by decide)⟩

/-- C9: the claim says the CLI `run` command drives `pipeline.run` through
load, split, seed synthesis, search, and persistence, constructing the
evaluator from the selected agent model.  The code cannot execute that
sequence: `main.py` passes keyword arguments `skill_model` and `base_url`
that `pipeline.run` does not declare, and `pipeline.run` passes `agent_model`
to `make_evaluator`, which declares no parameters — both calls raise
`TypeError` under Python keyword binding. -/
theorem c9_run_call_binding_fails :
    kwargs_accepted cli_run_call_kwargs pipeline_run_params = false ∧
      "skill_model" ∈ cli_run_call_kwargs ∧
      "skill_model" ∉ pipeline_run_params ∧
      kwargs_accepted pipeline_make_evaluator_call_kwargs
          make_evaluator_params = false ∧
      "agent_model" ∉ make_evaluator_params := by
  decide

end GSkill
